import Mathlib

/-!
Verification of the riverpark-ai-content-builder job lifecycle and
progress-tracking model against its TypeScript source.

The embedding translates, field by field, the relevant parts of:
  * `src/types/content.ts` (the `Product`, `ProcessingJob`, `ProcessingError`,
    `ContentConfig`, `AISearchContent` data model),
  * `src/app/api/jobs/route.ts` (the `POST` job-creation handler and the
    `simulateJobProgress` interval scheduler),
  * `src/app/api/jobs/[id]/route.ts` (the `GET`/`PATCH` per-id handlers over
    the separate `global.jobs` array),
  * `src/lib/ai/content-generator.ts` (the templated mock `AIContentGenerator`).

All timestamps are `new Date().toISOString()` strings in the source and are
modelled as opaque `String` values.  JavaScript numbers that are only ever
`0`-initialised and incremented are modelled as `Nat`; the one place the
source does non-integral arithmetic — the progress percentage — is modelled
in exact IEEE binary64 semantics (`jsPercentage`), not idealised to exact
rational arithmetic.
-/

namespace Riverpark

/-- Product snapshot from BigCommerce (`Product` in `src/types/content.ts`).
`brand.name` and `defaultImage.url` are flattened into single fields. -/
structure Product where
  entityId : Nat
  productId : Nat
  name : String
  price : Nat
  categories : List String
  description : String
  brandName : String
  imageUrl : String
  imageAltText : String
  path : String
deriving Repr, DecidableEq

/-- `JobStatus` union type from `src/types/content.ts`. -/
inductive JobStatus where
  | pending
  | running
  | paused
  | completed
  | failed
  | cancelled
deriving Repr, DecidableEq

/-- `errorType` union of `ProcessingError` in `src/types/content.ts`:
`ai-generation | validation | deployment | network`. -/
inductive ErrorType where
  | aiGeneration
  | validation
  | deployment
  | network
deriving Repr, DecidableEq

/-- `ProcessingError` record from `src/types/content.ts`. -/
structure ProcessingError where
  productId : Nat
  productName : String
  errorType : ErrorType
  message : String
  timestamp : String
  retryCount : Nat
  maxRetries : Nat
deriving Repr, DecidableEq

/-- The `progress` field of `ProcessingJob`. -/
structure Progress where
  total : Nat
  completed : Nat
  failed : Nat
  percentage : Nat
deriving Repr, DecidableEq

/-- `FishFamily` union type from `src/types/content.ts`. -/
inductive FishFamily where
  | cichlids
  | tetras
  | livebearers
  | catfish
  | barbs
  | danios
  | gouramis
  | loaches
  | rainbowfish
  | community
  | specialty
deriving Repr, DecidableEq

/-- `FishBehavior` union type from `src/types/content.ts`. -/
inductive FishBehavior where
  | peacefulSchooling
  | territorialAggressive
  | semiAggressive
  | bottomDwelling
  | surfaceDwelling
  | communityFriendly
deriving Repr, DecidableEq

/-- `TemplateType` union type from `src/types/content.ts`. -/
inductive TemplateType where
  | cichlidAggressive
  | cichlidPeaceful
  | tetraSchooling
  | livebearerBreeding
  | catfishBottom
  | communityStandard
  | specialtyCare
deriving Repr, DecidableEq

/-- `ContentConfig` from `src/types/content.ts`; `aiModel` and `validation`
are kept as strings. -/
structure ContentConfig where
  family : FishFamily
  behavior : FishBehavior
  templateType : TemplateType
  aiModel : String
  validationLevel : String
deriving Repr, DecidableEq

/-- `ProcessingJob` from `src/types/content.ts`. -/
structure ProcessingJob where
  id : String
  categories : List String
  products : List Product
  config : ContentConfig
  batchSize : Nat
  concurrent : Nat
  status : JobStatus
  progress : Progress
  startedAt : Option String
  completedAt : Option String
  errors : List ProcessingError
deriving Repr, DecidableEq

/-- The spec's percentage formula — `percentage = round(100 * completed /
total)`, exact half-up rounding of the rational, written
`⌊(200 * completed + total) / (2 * total)⌋` (0 at `total = 0` by
natural-number division).  This is the formula the claims state; the program
instead computes `Math.round((completed / total) * 100)` in IEEE binary64
doubles — `jsPercentage` below — and the two differ at reachable states
(claim C2). -/
def roundPercent (completed total : Nat) : Nat :=
  (200 * completed + total) / (2 * total)

/-- Whether `2 ^ k ≤ a / b`, for positive naturals `a`, `b` and `k : ℤ`. -/
def le2pow (k : Int) (a b : Nat) : Bool :=
  if 0 ≤ k then decide (b * 2 ^ k.toNat ≤ a)
  else decide (b ≤ a * 2 ^ (-k).toNat)

/-- `⌊log₂ n⌋` by fuelled structural recursion (`fuel ≥ n` always
suffices, the argument at least halving each step): counts how often `n`
can be halved before dropping below 2. -/
def log2Fuel : Nat → Nat → Nat
  | 0, _ => 0
  | fuel + 1, n => if 2 ≤ n then log2Fuel fuel (n / 2) + 1 else 0

/-- `⌊log₂ n⌋` for `n ≥ 1`. -/
def natLog2 (n : Nat) : Nat :=
  log2Fuel n n

/-- `⌊log₂ (a / b)⌋` for positive naturals `a`, `b`: with `la = ⌊log₂ a⌋`
and `lb = ⌊log₂ b⌋` the quotient lies in `(2^(la-lb-1), 2^(la-lb+1))`, so
one comparison settles which of the two candidate values it is. -/
def ratLog2 (a b : Nat) : Int :=
  let la : Int := natLog2 a
  let lb : Int := natLog2 b
  if le2pow (la - lb) a b then la - lb else la - lb - 1

/-- Round `a / b` (with `b > 0`) to the nearest integer, ties to even. -/
def roundHalfEven (a b : Nat) : Nat :=
  let q := a / b
  let r := a % b
  if 2 * r < b then q
  else if b < 2 * r then q + 1
  else if q % 2 = 0 then q else q + 1

/-- The IEEE binary64 double nearest to `a / b` (round to nearest, ties to
even), returned as a dyadic pair `(m, k)` whose value is `m / 2^k`: the
quotient is scaled by a power of two into the significand range
`[2^52, 2^53)` and rounded there.  Every value this model feeds in lies in
`(0, 200]`, far from the subnormal and overflow ranges, so this normal-range
rounding is the exact binary64 semantics. -/
def roundDouble (a b : Nat) : Nat × Nat :=
  if a = 0 then (0, 0)
  else
    let e : Int := ratLog2 a b - 52
    if 0 ≤ e then (roundHalfEven a (b * 2 ^ e.toNat) * 2 ^ e.toNat, 0)
    else (roundHalfEven (a * 2 ^ (-e).toNat) b, (-e).toNat)

/-- `Math.round((completed / total) * 100)` exactly as the source computes
it (`src/app/api/jobs/route.ts` line 177): the division and the
multiplication are each rounded to the nearest binary64 double, and
`Math.round` then returns the integer closest to the final double's exact
rational value `m / 2^k`, ties toward `+∞` — that is
`⌊m / 2^k + 1/2⌋ = (2m + 2^k) / 2^(k+1)`, per the ECMA specification of
`Math.round`.  The code never reaches this expression with `total = 0` (the
commit is guarded by a non-empty slice); the model returns 0 there. -/
def jsPercentage (completed total : Nat) : Nat :=
  if total = 0 then 0
  else
    let ratio := roundDouble completed total
    let scaled := roundDouble (100 * ratio.1) (2 ^ ratio.2)
    (2 * scaled.1 + 2 ^ scaled.2) / 2 ^ (scaled.2 + 1)

/-- The job constructed by `POST /api/jobs` (`src/app/api/jobs/route.ts`
lines 52-68): `status = 'pending'`, `progress = {total, 0, 0, 0}`,
`startedAt = now`, `errors = []`. -/
def mkJob (id : String) (categories : List String) (products : List Product)
    (config : ContentConfig) (batchSize concurrent : Nat) (now : String) :
    ProcessingJob :=
  { id := id
    categories := categories
    products := products
    config := config
    batchSize := batchSize
    concurrent := concurrent
    status := JobStatus.pending
    progress :=
      { total := products.length
        completed := 0
        failed := 0
        percentage := 0 }
    startedAt := some now
    completedAt := none
    errors := [] }

/-! ### The two in-memory job stores

`src/app/api/jobs/route.ts` keeps a module-local `const jobs: ProcessingJob[]`
which `GET /api/jobs` and `POST /api/jobs` use, while
`src/app/api/jobs/[id]/route.ts` lazily initialises and uses a distinct
`global.jobs` array (its own comment: "This would normally import from a
shared store").  Both arrays are modelled explicitly. -/

structure StoresState where
  /-- the module-local `jobs` array of `src/app/api/jobs/route.ts` -/
  routeJobs : List ProcessingJob
  /-- the `global.jobs` array of `src/app/api/jobs/[id]/route.ts` -/
  globalJobs : List ProcessingJob
deriving Repr, DecidableEq

/-- Both arrays start empty. -/
def initialStores : StoresState := { routeJobs := [], globalJobs := [] }

/-- Outcome of the product-resolution `fetch` against `/api/products`
performed by `POST` (`src/app/api/jobs/route.ts` lines 22-47): either the
resolved product list, or a non-ok response (`throw new Error(...)`). -/
def Resolution : Type := Except Unit (List Product)

/-- Response of the `POST /api/jobs` handler: `201` with the created job, or
`500 {error: 'Failed to create job'}` when product resolution throws. -/
inductive PostResponse where
  | created (job : ProcessingJob)
  | creationFailed500
deriving Repr, DecidableEq

/-- The `POST /api/jobs` handler (`src/app/api/jobs/route.ts` lines 14-85):
on successful resolution it constructs the job, pushes it onto the
module-local `jobs` array and returns `201`; on resolution failure the
`catch` block returns `500` before any `jobs.push` has run.  The fresh
`uuidv4()` and `new Date().toISOString()` are passed in as `newId`/`now`. -/
def postJobs (resolution : Resolution) (categories : List String)
    (config : ContentConfig) (batchSize concurrent : Nat)
    (newId now : String) (s : StoresState) : PostResponse × StoresState :=
  match resolution with
  | Except.error _ => (PostResponse.creationFailed500, s)
  | Except.ok products =>
      let j := mkJob newId categories products config batchSize concurrent now
      (PostResponse.created j, { s with routeJobs := s.routeJobs ++ [j] })

/-- The `GET /api/jobs/[id]` handler (`src/app/api/jobs/[id]/route.ts`
lines 17-33): `find` over `global.jobs`; `none` models the 404 response. -/
def getJobById (id : String) (s : StoresState) : Option ProcessingJob :=
  s.globalJobs.find? (fun j => j.id == id)

/-- The status update performed by `PATCH /api/jobs/[id]`
(`src/app/api/jobs/[id]/route.ts` lines 54-58):
`{...job, status, ...(status === 'completed' && {completedAt: now})}` —
the requested status is applied unconditionally and `completedAt` is set
only when the new status is `completed`. -/
def patchStatus (newStatus : JobStatus) (now : String) (j : ProcessingJob) :
    ProcessingJob :=
  { j with
    status := newStatus
    completedAt :=
      if newStatus = JobStatus.completed then some now else j.completedAt }

/-- The `PATCH /api/jobs/[id]` handler over a job array
(`src/app/api/jobs/[id]/route.ts` lines 35-68): `findIndex` by id, `none`
(404) when absent, otherwise the element is replaced by the patched copy and
returned. -/
def patchInStore (id : String) (newStatus : JobStatus) (now : String) :
    List ProcessingJob → Option ProcessingJob × List ProcessingJob
  | [] => (none, [])
  | j :: rest =>
      if j.id == id then
        let j2 := patchStatus newStatus now j
        (some j2, j2 :: rest)
      else
        let r := patchInStore id newStatus now rest
        (r.1, j :: r.2)

/-! ### The interval scheduler (`simulateJobProgress`)

`simulateJobProgress` (`src/app/api/jobs/route.ts` lines 88-189) drives a job
through batches on a repeating timer.  The per-product outcome of
`generateContent` / `publishContent` depends on the external world (the mock
generator throws at random, the publisher returns a boolean), so a tick takes
an environment `env : Nat → ItemOutcome` giving the outcome for the product
at each absolute position of the job's product list.

One interval callback is split into two atomic phases around its `await`
suspension points:

  * `tickBegin` — the synchronous prefix (`jobs.find`, the status check, the
    batch-size computation and early completion) together with the per-product
    loop (which pushes errors into the job's shared `errors` array), and
  * `tickCommit` — the trailing progress/cursor update and the completion
    check.

A `PATCH` landing between the two phases replaces the array element by a
shallow copy (`jobs[jobIndex] = {...jobs[jobIndex], status, ...}`), so the
object an in-flight callback holds becomes detached: its later writes to
`job.progress` / `job.status` / `job.completedAt` are not visible through the
store, while its `job.errors.push` calls still are (the copy shares the
`errors` array reference).  The `detached` flag on the in-flight record
models exactly this.

`setInterval` does not wait for its async callback: the per-product awaits
(a 1-3 s randomised delay in the mock generator, plus network calls) can
outlast the 3 s timer, so a second callback may begin — and read the same
`currentProductIndex`, both closure variables being shared — while the first
is still parked at an `await`.  The state therefore carries a *list* of
in-flight callbacks: `tickBegin` appends one, and `tickCommit k` commits the
`k`-th (callbacks finish in any order).  Each callback's local
`batchSuccessful` / `batchFailed` / slice are its own; `processedProducts`
and `currentProductIndex` are shared closure variables updated at commit.

One modelling note: the `PATCH` handler lives in a different route module
with its own `global.jobs` array (see `StoresState`), so for the lifecycle
claims that combine `PATCH` with the scheduler the two handlers are modelled
over one shared job record, as the source comment says was intended. -/

/-- Outcome of processing one product inside the batch loop
(`src/app/api/jobs/route.ts` lines 122-167): the generator throws
(`catch` branch), or generation succeeds but `publishContent` returns
`false`, or both succeed. -/
inductive ItemOutcome where
  | genFailure (msg : String)
  | publishFailure
  | success

/-- `1` when the branch executes `batchSuccessful += 1`. -/
def itemSuccessCount : ItemOutcome → Nat
  | ItemOutcome.success => 1
  | ItemOutcome.publishFailure => 0
  | ItemOutcome.genFailure _ => 0

/-- `1` when the branch executes `batchFailed += 1`. -/
def itemFailCount : ItemOutcome → Nat
  | ItemOutcome.success => 0
  | ItemOutcome.publishFailure => 1
  | ItemOutcome.genFailure _ => 1

/-- The error pushed when `publishContent` returns `false`
(`src/app/api/jobs/route.ts` lines 143-151). -/
def deploymentErrorOf (p : Product) (now : String) : ProcessingError :=
  { productId := p.productId
    productName := p.name
    errorType := ErrorType.deployment
    message := "Failed to publish content to Catalyst storefront"
    timestamp := now
    retryCount := 0
    maxRetries := 3 }

/-- The error pushed in the `catch` branch when the generator throws
(`src/app/api/jobs/route.ts` lines 156-164). -/
def generationErrorOf (p : Product) (msg now : String) : ProcessingError :=
  { productId := p.productId
    productName := p.name
    errorType := ErrorType.aiGeneration
    message := msg
    timestamp := now
    retryCount := 0
    maxRetries := 3 }

/-- The `ProcessingError` pushed for one product, if any. -/
def itemError (p : Product) (o : ItemOutcome) (now : String) :
    Option ProcessingError :=
  match o with
  | ItemOutcome.success => none
  | ItemOutcome.publishFailure => some (deploymentErrorOf p now)
  | ItemOutcome.genFailure msg => some (generationErrorOf p msg now)

/-- Accumulated result of the `for (const product of processingBatch)` loop:
the local `batchSuccessful` / `batchFailed` counters and the errors pushed,
in product order. -/
structure BatchResult where
  batchSuccessful : Nat
  batchFailed : Nat
  newErrors : List ProcessingError

/-- The batch loop (`src/app/api/jobs/route.ts` lines 122-167) over the slice
starting at absolute product index `idx`. -/
def processBatch (env : Nat → ItemOutcome) (idx : Nat) (now : String) :
    List Product → BatchResult
  | [] => { batchSuccessful := 0, batchFailed := 0, newErrors := [] }
  | p :: rest =>
      let r := processBatch env (idx + 1) now rest
      { batchSuccessful := itemSuccessCount (env idx) + r.batchSuccessful
        batchFailed := itemFailCount (env idx) + r.batchFailed
        newErrors := (itemError p (env idx) now).toList ++ r.newErrors }

/-- The closure-local state of one `simulateJobProgress` invocation:
`processedProducts`, `currentProductIndex` and whether the interval is still
scheduled (`clearInterval` has not run). -/
structure SchedulerState where
  processedProducts : Nat
  currentProductIndex : Nat
  intervalActive : Bool
deriving Repr, DecidableEq

/-- An interval callback that has passed its status check and processed its
batch but has not yet committed (it is parked at an `await`). -/
structure InflightTick where
  sliceLen : Nat
  result : BatchResult
  /-- set once a `PATCH` has replaced the store element with a copy, so the
  callback's trailing writes land on a stale object -/
  detached : Bool

/-- Remove the `k`-th element of the in-flight list, returning it and the
remaining list (`none` when `k` is out of range). -/
def removeNth : List InflightTick → Nat → Option (InflightTick × List InflightTick)
  | [], _ => none
  | fl :: rest, 0 => some (fl, rest)
  | fl :: rest, Nat.succ k =>
      match removeNth rest k with
      | none => none
      | some (x, rest2) => some (x, fl :: rest2)

/-- One job's view of the system: the job record as visible in the store
array, the scheduler closure state, whether `simulateJobProgress` has run
(its `setTimeout` fires once, 1s after creation), and the in-flight
callbacks, in the order they began (the source serialises nothing: several
may be parked at `await`s at once). -/
structure SysState where
  store : ProcessingJob
  sched : SchedulerState
  started : Bool
  inflight : List InflightTick

/-- Atomic events of the job lifecycle. -/
inductive Action where
  /-- `simulateJobProgress` start (`src/app/api/jobs/route.ts` lines 88-96):
  unconditionally sets `job.status = 'running'`, zeroes the closure counters
  and schedules the interval -/
  | schedStart
  /-- synchronous prefix plus batch loop of one interval callback (several
  may begin before any commits: `setInterval` does not wait for the async
  callback) -/
  | tickBegin (env : Nat → ItemOutcome) (now : String)
  /-- trailing progress commit of the `k`-th in-flight callback (callbacks
  finish in any order) -/
  | tickCommit (k : Nat) (now : String)
  /-- `PATCH` with `{status}` applied to this job -/
  | patch (newStatus : JobStatus) (now : String)

/-- `simulateJobProgress` start (`src/app/api/jobs/route.ts` lines 88-96),
a no-op once `started` (the `setTimeout` in `POST` fires exactly once per
job): it unconditionally sets `job.status = 'running'`, zeroes the closure
counters and schedules the interval. -/
def schedStartAct (s : SysState) : SysState :=
  if s.started then s
  else
    { s with
      started := true
      store := { s.store with status := JobStatus.running }
      sched :=
        { processedProducts := 0
          currentProductIndex := 0
          intervalActive := true } }

/-- A `PATCH` applied to this job: the store element is replaced by the
patched shallow copy, detaching any in-flight callback's trailing writes. -/
def patchAct (newStatus : JobStatus) (now : String) (s : SysState) : SysState :=
  { s with
    store := patchStatus newStatus now s.store
    inflight := s.inflight.map (fun fl => { fl with detached := true }) }

/-- Synchronous prefix plus batch loop of one interval callback
(`src/app/api/jobs/route.ts` lines 99-167): a no-op if `clearInterval` has
run (the timer no longer fires); `clearInterval` when the status is no
longer `running`; completion when the remaining slice is empty; otherwise
the batch at the *current* shared cursor is processed — regardless of how
many other callbacks are already parked at `await`s with the same cursor —
its errors are pushed onto the shared `errors` array and the callback parks
awaiting its commit. -/
def tickBeginAct (env : Nat → ItemOutcome) (now : String) (s : SysState) :
    SysState :=
  if s.sched.intervalActive = false then s
  else
    if s.store.status ≠ JobStatus.running then
      { s with sched := { s.sched with intervalActive := false } }
    else
      let len := s.store.products.length
      let idx := s.sched.currentProductIndex
      let bs := min s.store.batchSize (len - idx)
      if bs = 0 then
        { s with
          store :=
            { s.store with
              status := JobStatus.completed
              completedAt := some now }
          sched := { s.sched with intervalActive := false } }
      else
        let batch := (s.store.products.drop idx).take bs
        let r := processBatch env idx now batch
        { s with
          store := { s.store with errors := s.store.errors ++ r.newErrors }
          inflight :=
            s.inflight ++ [{ sliceLen := bs, result := r, detached := false }] }

/-- Trailing progress/cursor update and completion check of the `k`-th
in-flight callback (`src/app/api/jobs/route.ts` lines 169-188).  The shared
closure counters always advance; the writes to `job.progress` /
`job.status` / `job.completedAt` reach the store only if no `PATCH` detached
the object meanwhile, while `clearInterval` on completion is real either
way.  The percentage is the source's `Math.round((processedProducts /
job.products.length) * 100)`, computed in binary64 (`jsPercentage`). -/
def tickCommitAct (k : Nat) (now : String) (s : SysState) : SysState :=
  match removeNth s.inflight k with
  | none => s
  | some (fl, remaining) =>
      let processed := s.sched.processedProducts + fl.result.batchSuccessful
      let idx := s.sched.currentProductIndex + fl.sliceLen
      let len := s.store.products.length
      let store1 :=
        if fl.detached then s.store
        else
          let st1 :=
            { s.store with
              progress :=
                { total := len
                  completed := processed
                  failed := s.store.progress.failed + fl.result.batchFailed
                  percentage := jsPercentage processed len } }
          if len ≤ idx then
            { st1 with
              status := JobStatus.completed
              completedAt := some now }
          else st1
      { store := store1
        sched :=
          { processedProducts := processed
            currentProductIndex := idx
            intervalActive := if len ≤ idx then false else s.sched.intervalActive }
        started := s.started
        inflight := remaining }

/-- Apply one event. -/
def applyAction (a : Action) (s : SysState) : SysState :=
  match a with
  | Action.schedStart => schedStartAct s
  | Action.patch newStatus now => patchAct newStatus now s
  | Action.tickBegin env now => tickBeginAct env now s
  | Action.tickCommit k now => tickCommitAct k now s

/-- Fold a list of events over a state. -/
def run (s : SysState) (acts : List Action) : SysState :=
  acts.foldl (fun st a => applyAction a st) s

/-- The state right after `POST` has pushed the freshly created job: the
scheduler has not started, no interval is scheduled, no callback in flight. -/
def initSys (j : ProcessingJob) : SysState :=
  { store := j
    sched :=
      { processedProducts := 0
        currentProductIndex := 0
        intervalActive := false }
    started := false
    inflight := [] }

/-- Store-level invariant that survives even overlapping interval callbacks,
for a job whose product list is `P0`: the product list never changes,
`progress.total` is always its length, and the stored `percentage` is always
the binary64 `Math.round` of the stored `completed` over that length (the
commit writes `completed` and `percentage` in one atomic progress object).
The counting bound `completed + failed ≤ total` is deliberately *not* here:
it is false of the program, because overlapping callbacks double-process a
slice — claim C1. -/
structure GoodState (P0 : List Product) (s : SysState) : Prop where
  products_eq : s.store.products = P0
  total_eq : s.store.progress.total = P0.length
  pct_eq : s.store.progress.percentage =
    jsPercentage s.store.progress.completed P0.length


/-! ### Fixtures for the concrete evaluations -/

def sampleConfig : ContentConfig :=
  { family := FishFamily.cichlids
    behavior := FishBehavior.territorialAggressive
    templateType := TemplateType.cichlidAggressive
    aiModel := "gpt-4"
    validationLevel := "strict" }

def sampleProduct (n : Nat) (nm : String) : Product :=
  { entityId := n
    productId := n
    name := nm
    price := 1299
    categories := ["African Cichlids"]
    description := "A hardy and colourful freshwater aquarium fish suitable for community cichlid tanks."
    brandName := "Riverpark Aquatics"
    imageUrl := "https://example.test/fish.png"
    imageAltText := nm
    path := "/fish"
    }

def prodA : Product := sampleProduct 101 "Electric Yellow Cichlid"

def prodB : Product := sampleProduct 102 "Neon Tetra"

/-- A job that has run to completion, as stored. -/
def completedJob : ProcessingJob :=
  { mkJob "job-1" ["12"] [prodA] sampleConfig 5 3 "T0" with
    status := JobStatus.completed
    completedAt := some "T1"
    progress := { total := 1, completed := 1, failed := 0, percentage := 100 } }

/-- A job mid-run, as stored. -/
def runningJob : ProcessingJob :=
  { mkJob "job-2" ["12"] [prodA, prodB] sampleConfig 1 3 "T0" with
    status := JobStatus.running }

/-- The pause/resume scenario of C8 on a 2-product job with `batchSize = 1`:
one full tick succeeds on the first product, the job is paused, the next
interval callback observes the pause (and clears the interval), and the job
is set back to `running`. -/
def pauseResumeFinal : SysState :=
  run (initSys (mkJob "job-2" ["12"] [prodA, prodB] sampleConfig 1 3 "T0"))
    [Action.schedStart,
      Action.tickBegin (fun _ => ItemOutcome.success) "T1",
      Action.tickCommit 0 "T2",
      Action.patch JobStatus.paused "T3",
      Action.tickBegin (fun _ => ItemOutcome.success) "T4",
      Action.patch JobStatus.running "T5"]

/-- The overlapping-callback scenario of C1 on a 2-product job with
`batchSize = 2`: the first interval callback's per-product awaits (1-3 s
each in the mock generator) outlast the 3 s timer, so the second callback
begins — reading the same shared `currentProductIndex = 0` — while the first
is parked; both process the slice `products[0:2]` and both commit. -/
def overlapFinal : SysState :=
  run (initSys (mkJob "job-3" ["12"] [prodA, prodB] sampleConfig 2 3 "T0"))
    [Action.schedStart,
      Action.tickBegin (fun _ => ItemOutcome.success) "T1",
      Action.tickBegin (fun _ => ItemOutcome.success) "T2",
      Action.tickCommit 0 "T3",
      Action.tickCommit 0 "T4"]

/-- A 40-product catalog slice. -/
def fortyProducts : List Product :=
  (List.range 40).map (fun i => sampleProduct i "Neon Tetra")

/-- The double-rounding scenario of C2: a 40-product job with
`batchSize = 23` whose first tick succeeds on all 23 products of its slice,
reaching the reachable state `completed = 23, total = 40`. -/
def floatFinal : SysState :=
  run (initSys (mkJob "job-4" [] fortyProducts sampleConfig 23 3 "T0"))
    [Action.schedStart,
      Action.tickBegin (fun _ => ItemOutcome.success) "T1",
      Action.tickCommit 0 "T2"]

/-! ### The mock content generator (`src/lib/ai/content-generator.ts`)

The `AIContentGenerator` used by the jobs route is the templated mock: after
a randomised delay it throws an "API timeout" error when
`Math.random() < 0.1`, and otherwise builds the content object from the
product name and the config's template type alone.  The random draw is
passed in as the boolean `apiTimeout`; the `new Date().toISOString()` calls
in `metadata` are passed in as `now`. -/

/-- `basicInfo` section of `AISearchContent` (`src/types/content.ts`). -/
structure BasicInfo where
  scientificName : String
  commonNames : List String
  category : String
  family : String
  origin : String
  waterType : String
deriving Repr, DecidableEq

/-- `careRequirements` section of `AISearchContent`. -/
structure CareRequirements where
  minTankSize : String
  temperatureRange : String
  phRange : String
  maxSize : String
  diet : String
  careLevel : String
  temperament : String
  socialNeeds : String
  lifespan : String
deriving Repr, DecidableEq

/-- `compatibility` section of `AISearchContent`. -/
structure CompatibilityInfo where
  compatibleWith : List String
  avoidWith : List String
  tankMateCategories : List String
deriving Repr, DecidableEq

/-- One entry of `aiContext.commonQuestions`. -/
structure QAPair where
  question : String
  answer : String
deriving Repr, DecidableEq

/-- `aiContext` section of `AISearchContent`. -/
structure AiContext where
  whyPopular : String
  keySellingPoints : List String
  commonQuestions : List QAPair
  alternativeNames : List String
deriving Repr, DecidableEq

/-- `relatedProducts` section of `AISearchContent`. -/
structure RelatedProductsInfo where
  complementaryProducts : List String
  similarSpecies : List String
deriving Repr, DecidableEq

/-- `breeding` section of `AISearchContent`. -/
structure BreedingInfo where
  breedingType : String
  breedingDifficulty : String
  breedingNotes : String
deriving Repr, DecidableEq

/-- `metadata` section of `AISearchContent`; `generatedAt` and `lastUpdated`
are the two embedded generation timestamps. -/
structure ContentMetadata where
  generatedAt : String
  lastUpdated : String
  confidence : String
  sources : List String
  fishFamily : FishFamily
  template : TemplateType
deriving Repr, DecidableEq

/-- `AISearchContent` from `src/types/content.ts`. -/
structure AISearchContent where
  productId : Nat
  type : String
  version : String
  basicInfo : BasicInfo
  searchKeywords : List String
  careRequirements : CareRequirements
  compatibility : CompatibilityInfo
  aiContext : AiContext
  relatedProducts : RelatedProductsInfo
  breeding : BreedingInfo
  metadata : ContentMetadata
deriving Repr, DecidableEq

/-- JavaScript `String.prototype.includes`, over character lists. -/
def charsContain (pat : List Char) : List Char → Bool
  | [] => pat.isEmpty
  | c :: rest => pat.isPrefixOf (c :: rest) || charsContain pat rest

/-- `s.includes(pat)`. -/
def strIncludes (s pat : String) : Bool :=
  charsContain pat.data s.data

/-- `s.toLowerCase().includes(pat)` (ASCII case folding, which covers the
patterns the generator tests for). -/
def lowerIncludes (s pat : String) : Bool :=
  strIncludes s.toLower pat

/-- Match of `/([A-Z][a-z]+ [a-z]+)/` anchored at the head of the list
(`Char.isUpper`/`Char.isLower` test exactly the ASCII ranges `A-Z`/`a-z`). -/
def sciMatchAt : List Char → Option (List Char)
  | [] => none
  | c :: rest =>
      if c.isUpper then
        let run1 := rest.takeWhile Char.isLower
        let rest1 := rest.dropWhile Char.isLower
        if run1.isEmpty then none
        else
          match rest1 with
          | ' ' :: rest2 =>
              let run2 := rest2.takeWhile Char.isLower
              if run2.isEmpty then none
              else some (c :: run1 ++ ' ' :: run2)
          | _ => none
      else none

/-- Leftmost match of the scientific-name pattern, as
`productName.match(/([A-Z][a-z]+ [a-z]+)/)` finds it (the greedy `[a-z]+`
runs never need backtracking here because a lowercase letter can never
satisfy the following literal space). -/
def sciSearch : List Char → Option (List Char)
  | [] => none
  | c :: rest =>
      match sciMatchAt (c :: rest) with
      | some m => some m
      | none => sciSearch rest

/-- `generateScientificName` (`src/lib/ai/content-generator.ts`
lines 126-131). -/
def generateScientificName (productName : String) : String :=
  match sciSearch productName.data with
  | some m => String.mk m
  | none => "Genus species"

/-- JavaScript `String.prototype.replace` with a string pattern: replaces
only the first occurrence. -/
def replaceFirst (s pat repl : String) : String :=
  match s.splitOn pat with
  | [] => s
  | [x] => x
  | x :: y :: rest => x ++ repl ++ String.intercalate pat (y :: rest)

/-- `extractCommonNames` (lines 133-143): the product name itself, plus the
name with the first `Cichlid` removed and trimmed, capped at 3 entries. -/
def extractCommonNames (productName : String) : List String :=
  let names := [productName]
  let names :=
    if strIncludes productName "Cichlid" then
      names ++ [(replaceFirst productName "Cichlid" "").trim]
    else names
  names.take 3

/-- `determineFishFamily` (lines 145-153); the config family parameter is
accepted and ignored, as in the source. -/
def determineFishFamily (productName : String) (configFamily : FishFamily) :
    String :=
  if lowerIncludes productName "cichlid" then "Cichlidae"
  else if lowerIncludes productName "tetra" then "Characidae"
  else if lowerIncludes productName "guppy" || lowerIncludes productName "molly"
    then "Poeciliidae"
  else if lowerIncludes productName "catfish" || lowerIncludes productName "pleco"
    then "Loricariidae"
  else "Cyprinidae"

/-- `determineOrigin` (lines 155-163). -/
def determineOrigin (productName : String) : String :=
  if lowerIncludes productName "malawi" then "Lake Malawi, Africa"
  else if lowerIncludes productName "tanganyika" then "Lake Tanganyika, Africa"
  else if lowerIncludes productName "victoria" then "Lake Victoria, Africa"
  else if lowerIncludes productName "south american" then "South America"
  else if lowerIncludes productName "asian" then "Southeast Asia"
  else "Various freshwater habitats"

/-- `generateKeywords` (lines 165-182). -/
def generateKeywords (productName : String) : List String :=
  let baseKeywords :=
    ["freshwater fish", "aquarium fish", "tropical fish", productName.toLower]
  let baseKeywords :=
    if lowerIncludes productName "cichlid" then
      baseKeywords ++ ["cichlid", "african cichlid"]
    else baseKeywords
  let baseKeywords :=
    if lowerIncludes productName "tetra" then
      baseKeywords ++ ["schooling fish", "community fish"]
    else baseKeywords
  baseKeywords.take 8

/-- One entry of the `templates` table in `getTemplate` (lines 83-124). -/
structure TemplateRec where
  tankSize : String
  temperament : String
  socialNeeds : String
deriving Repr, DecidableEq

/-- `getTemplate` (lines 83-124). -/
def getTemplate : TemplateType → TemplateRec
  | TemplateType.cichlidAggressive =>
      { tankSize := "55+ gallons"
        temperament := "Aggressive"
        socialNeeds := "Species-only or with similar aggressive cichlids" }
  | TemplateType.cichlidPeaceful =>
      { tankSize := "30+ gallons"
        temperament := "Peaceful"
        socialNeeds := "Community tank with peaceful cichlids" }
  | TemplateType.tetraSchooling =>
      { tankSize := "20+ gallons"
        temperament := "Peaceful"
        socialNeeds := "School of 6+ individuals" }
  | TemplateType.livebearerBreeding =>
      { tankSize := "20+ gallons"
        temperament := "Peaceful"
        socialNeeds := "Community tank, breeds readily" }
  | TemplateType.catfishBottom =>
      { tankSize := "30+ gallons"
        temperament := "Peaceful"
        socialNeeds := "Bottom-dwelling, good with most community fish" }
  | TemplateType.communityStandard =>
      { tankSize := "20+ gallons"
        temperament := "Peaceful"
        socialNeeds := "Community tank friendly" }
  | TemplateType.specialtyCare =>
      { tankSize := "40+ gallons"
        temperament := "Variable"
        socialNeeds := "Specific requirements, research needed" }

/-- `determineTankSize` (lines 184-187). -/
def determineTankSize (tt : TemplateType) : String :=
  (getTemplate tt).tankSize

/-- `determineTemperament` (lines 255-258). -/
def determineTemperament (tt : TemplateType) : String :=
  (getTemplate tt).temperament

/-- `determineSocialNeeds` (lines 260-263). -/
def determineSocialNeeds (tt : TemplateType) : String :=
  (getTemplate tt).socialNeeds

/-- `determineTemperature` (lines 189-201). -/
def determineTemperature : TemplateType → String
  | TemplateType.cichlidAggressive => "76-82°F (24-28°C)"
  | TemplateType.cichlidPeaceful => "74-80°F (23-27°C)"
  | TemplateType.tetraSchooling => "72-78°F (22-26°C)"
  | TemplateType.livebearerBreeding => "72-82°F (22-28°C)"
  | TemplateType.catfishBottom => "72-78°F (22-26°C)"
  | TemplateType.communityStandard => "72-78°F (22-26°C)"
  | TemplateType.specialtyCare => "Variable, species-specific"

/-- `determinePH` (lines 203-215). -/
def determinePH : TemplateType → String
  | TemplateType.cichlidAggressive => "7.8-8.6"
  | TemplateType.cichlidPeaceful => "7.5-8.5"
  | TemplateType.tetraSchooling => "6.0-7.5"
  | TemplateType.livebearerBreeding => "7.0-8.5"
  | TemplateType.catfishBottom => "6.5-7.5"
  | TemplateType.communityStandard => "6.5-7.5"
  | TemplateType.specialtyCare => "Variable"

/-- `determineMaxSize` (lines 217-225). -/
def determineMaxSize (productName : String) : String :=
  if lowerIncludes productName "dwarf" then "2-3 inches"
  else if lowerIncludes productName "large" || lowerIncludes productName "giant"
    then "8-12 inches"
  else if lowerIncludes productName "tetra" then "1-2 inches"
  else if lowerIncludes productName "cichlid" then "4-6 inches"
  else "3-5 inches"

/-- `determineDiet` (lines 227-239). -/
def determineDiet : TemplateType → String
  | TemplateType.cichlidAggressive =>
      "Omnivore - high-quality cichlid pellets, frozen foods"
  | TemplateType.cichlidPeaceful =>
      "Omnivore - cichlid pellets, vegetables, small live foods"
  | TemplateType.tetraSchooling =>
      "Omnivore - tropical flakes, micro pellets, frozen foods"
  | TemplateType.livebearerBreeding =>
      "Omnivore - tropical flakes, vegetables, live foods"
  | TemplateType.catfishBottom =>
      "Omnivore - sinking pellets, algae wafers, frozen foods"
  | TemplateType.communityStandard => "Omnivore - tropical flakes, pellets"
  | TemplateType.specialtyCare => "Species-specific diet requirements"

/-- `determineCareLevel` (lines 241-253). -/
def determineCareLevel : TemplateType → String
  | TemplateType.cichlidAggressive => "Intermediate"
  | TemplateType.cichlidPeaceful => "Beginner-Intermediate"
  | TemplateType.tetraSchooling => "Beginner"
  | TemplateType.livebearerBreeding => "Beginner"
  | TemplateType.catfishBottom => "Beginner"
  | TemplateType.communityStandard => "Beginner"
  | TemplateType.specialtyCare => "Advanced"

/-- `determineLifespan` (lines 265-277). -/
def determineLifespan : TemplateType → String
  | TemplateType.cichlidAggressive => "8-15 years"
  | TemplateType.cichlidPeaceful => "8-12 years"
  | TemplateType.tetraSchooling => "3-8 years"
  | TemplateType.livebearerBreeding => "2-5 years"
  | TemplateType.catfishBottom => "10-15 years"
  | TemplateType.communityStandard => "5-10 years"
  | TemplateType.specialtyCare => "Variable"

/-- `generateCompatibleSpecies` (lines 279-291). -/
def generateCompatibleSpecies : TemplateType → List String
  | TemplateType.cichlidAggressive =>
      ["Other aggressive cichlids", "Large catfish", "Synodontis"]
  | TemplateType.cichlidPeaceful =>
      ["Peaceful cichlids", "Rainbow fish", "Larger tetras"]
  | TemplateType.tetraSchooling =>
      ["Other tetras", "Corydoras", "Peaceful cichlids", "Livebearers"]
  | TemplateType.livebearerBreeding =>
      ["Tetras", "Corydoras", "Peaceful cichlids", "Other livebearers"]
  | TemplateType.catfishBottom => ["Most community fish", "Cichlids", "Tetras"]
  | TemplateType.communityStandard => ["Most peaceful community fish"]
  | TemplateType.specialtyCare => ["Research species-specific compatibility"]

/-- `generateAvoidSpecies` (lines 293-305). -/
def generateAvoidSpecies : TemplateType → List String
  | TemplateType.cichlidAggressive => ["Small peaceful fish", "Delicate species"]
  | TemplateType.cichlidPeaceful => ["Aggressive cichlids", "Very small fish"]
  | TemplateType.tetraSchooling =>
      ["Large aggressive fish", "Fish that will eat them"]
  | TemplateType.livebearerBreeding => ["Large predatory fish"]
  | TemplateType.catfishBottom => ["Extremely aggressive fish"]
  | TemplateType.communityStandard => ["Aggressive species"]
  | TemplateType.specialtyCare => ["Incompatible species vary by fish"]

/-- `generateTankMateCategories` (lines 307-319). -/
def generateTankMateCategories : TemplateType → List String
  | TemplateType.cichlidAggressive => ["Aggressive cichlids", "Large catfish"]
  | TemplateType.cichlidPeaceful =>
      ["Peaceful cichlids", "Medium community fish"]
  | TemplateType.tetraSchooling =>
      ["Small community fish", "Bottom dwellers", "Peaceful fish"]
  | TemplateType.livebearerBreeding => ["Community fish", "Peaceful species"]
  | TemplateType.catfishBottom => ["Community fish", "Most peaceful species"]
  | TemplateType.communityStandard => ["Peaceful community fish"]
  | TemplateType.specialtyCare => ["Species-specific"]

/-- `generatePopularityReason` (lines 321-333); the product-name parameter is
accepted and ignored, as in the source. -/
def generatePopularityReason (productName : String) :
    TemplateType → String
  | TemplateType.cichlidAggressive =>
      "Popular for their vibrant colors and bold personalities in species-specific setups."
  | TemplateType.cichlidPeaceful =>
      "Loved for their beautiful colors and relatively peaceful nature in community cichlid tanks."
  | TemplateType.tetraSchooling =>
      "Favorite among beginners for their peaceful nature, schooling behavior, and easy care."
  | TemplateType.livebearerBreeding =>
      "Popular for their ease of breeding, colorful varieties, and beginner-friendly care."
  | TemplateType.catfishBottom =>
      "Appreciated for their algae-eating abilities and peaceful bottom-dwelling nature."
  | TemplateType.communityStandard =>
      "Popular community fish known for their peaceful temperament and easy care."
  | TemplateType.specialtyCare =>
      "Sought after by advanced aquarists for their unique characteristics and care challenges."

/-- `generateSellingPoints` (lines 335-347). -/
def generateSellingPoints : TemplateType → List String
  | TemplateType.cichlidAggressive =>
      ["Vibrant colors", "Bold personality", "Long-lived", "Intelligent behavior"]
  | TemplateType.cichlidPeaceful =>
      ["Beautiful coloration", "Peaceful for cichlids", "Hardy", "Interesting behavior"]
  | TemplateType.tetraSchooling =>
      ["Peaceful schooling", "Beginner-friendly", "Active swimmers", "Community safe"]
  | TemplateType.livebearerBreeding =>
      ["Easy breeding", "Multiple color varieties", "Hardy", "Beginner-friendly"]
  | TemplateType.catfishBottom =>
      ["Algae control", "Bottom cleaning", "Peaceful nature", "Hardy"]
  | TemplateType.communityStandard =>
      ["Peaceful temperament", "Easy care", "Community friendly", "Attractive"]
  | TemplateType.specialtyCare =>
      ["Unique characteristics", "Rare species", "Advanced challenge", "Distinctive"]

/-- `generateQA` (lines 349-364). -/
def generateQA (productName : String) (tt : TemplateType) : List QAPair :=
  let tank := determineTankSize tt
  let level := (determineCareLevel tt).toLower
  let temper := (determineTemperament tt).toLower
  [ { question := s!"What size tank do {productName} need?"
      answer := s!"{productName} require a minimum of {tank} with proper filtration and heating." }
  , { question := s!"Are {productName} good for beginners?"
      answer := s!"{productName} are considered {level} level fish with {temper} temperament." }
  , { question := s!"What do {productName} eat?"
      answer := determineDiet tt } ]

/-- Collapse every whitespace run to a single space, as
`replace(/\s+/g, ' ')` does; the boolean tracks whether the previous
character belonged to a run already emitted. -/
def collapseWsAux : Bool → List Char → List Char
  | _, [] => []
  | prevWs, c :: rest =>
      if c.isWhitespace then
        if prevWs then collapseWsAux true rest
        else ' ' :: collapseWsAux true rest
      else c :: collapseWsAux false rest

/-- `generateAlternativeNames` (lines 366-368). -/
def generateAlternativeNames (productName : String) : List String :=
  [productName, String.mk (collapseWsAux false productName.data)]

/-- `generateComplementaryProducts` (lines 370-372); the template parameter
is accepted and ignored, as in the source. -/
def generateComplementaryProducts (tt : TemplateType) : List String :=
  ["Aquarium heater", "Filter media", "Fish food", "Water conditioner"]

/-- `generateSimilarSpecies` (lines 374-376). -/
def generateSimilarSpecies (productName : String) : List String :=
  let firstWord := (productName.splitOn " ").headD ""
  [s!"Similar {firstWord} species", "Related varieties"]

/-- `determineBreedingType` (lines 378-390). -/
def determineBreedingType : TemplateType → String
  | TemplateType.cichlidAggressive => "Mouthbrooder"
  | TemplateType.cichlidPeaceful => "Substrate spawner"
  | TemplateType.tetraSchooling => "Egg scatterer"
  | TemplateType.livebearerBreeding => "Livebearer"
  | TemplateType.catfishBottom => "Cave spawner"
  | TemplateType.communityStandard => "Various"
  | TemplateType.specialtyCare => "Species-specific"

/-- `determineBreedingDifficulty` (lines 392-404). -/
def determineBreedingDifficulty : TemplateType → String
  | TemplateType.cichlidAggressive => "Moderate"
  | TemplateType.cichlidPeaceful => "Moderate"
  | TemplateType.tetraSchooling => "Moderate"
  | TemplateType.livebearerBreeding => "Easy"
  | TemplateType.catfishBottom => "Difficult"
  | TemplateType.communityStandard => "Moderate"
  | TemplateType.specialtyCare => "Very Difficult"

/-- `generateBreedingNotes` (lines 406-418). -/
def generateBreedingNotes : TemplateType → String
  | TemplateType.cichlidAggressive =>
      "Provide proper territory and breeding caves. Separate breeding pairs."
  | TemplateType.cichlidPeaceful =>
      "Provide flat surfaces for spawning. Parents may guard eggs."
  | TemplateType.tetraSchooling =>
      "Requires soft water and fine-leaved plants for egg laying."
  | TemplateType.livebearerBreeding =>
      "Very easy to breed. Provide plants for fry protection."
  | TemplateType.catfishBottom =>
      "Requires caves and excellent water quality. Eggs are guarded."
  | TemplateType.communityStandard =>
      "Breeding varies by species. Research specific requirements."
  | TemplateType.specialtyCare =>
      "Complex breeding requirements. Research species-specific needs."

/-- `calculateConfidence` (lines 420-432); the JavaScript truthiness tests on
`description`, `brand.name` and `defaultImage.url` are the non-empty-string
tests. -/
def calculateConfidence (product : Product) : String :=
  let score := 70
  let score :=
    if product.description ≠ "" ∧ 50 < product.description.length then
      score + 10
    else score
  let score := if 0 < product.categories.length then score + 10 else score
  let score := if product.brandName ≠ "" then score + 5 else score
  let score := if product.imageUrl ≠ "" then score + 5 else score
  if 90 ≤ score then "high" else if 80 ≤ score then "medium" else "low"

/-- `product.categories[0] || 'Freshwater Fish'`: the first category unless
it is absent or the empty string (falsy). -/
def categoryOrDefault : List String → String
  | [] => "Freshwater Fish"
  | c :: _ => if c = "" then "Freshwater Fish" else c

/-- The content object returned by a successful `generateContent` call
(`src/lib/ai/content-generator.ts` lines 24-76); `now` stands for the two
`new Date().toISOString()` evaluations in `metadata`. -/
def buildContent (product : Product) (config : ContentConfig) (now : String) :
    AISearchContent :=
  { productId := product.productId
    type := "ai-search"
    version := "1.0"
    basicInfo :=
      { scientificName := generateScientificName product.name
        commonNames := extractCommonNames product.name
        category := categoryOrDefault product.categories
        family := determineFishFamily product.name config.family
        origin := determineOrigin product.name
        waterType := "Freshwater" }
    searchKeywords := generateKeywords product.name
    careRequirements :=
      { minTankSize := determineTankSize config.templateType
        temperatureRange := determineTemperature config.templateType
        phRange := determinePH config.templateType
        maxSize := determineMaxSize product.name
        diet := determineDiet config.templateType
        careLevel := determineCareLevel config.templateType
        temperament := determineTemperament config.templateType
        socialNeeds := determineSocialNeeds config.templateType
        lifespan := determineLifespan config.templateType }
    compatibility :=
      { compatibleWith := generateCompatibleSpecies config.templateType
        avoidWith := generateAvoidSpecies config.templateType
        tankMateCategories := generateTankMateCategories config.templateType }
    aiContext :=
      { whyPopular := generatePopularityReason product.name config.templateType
        keySellingPoints := generateSellingPoints config.templateType
        commonQuestions := generateQA product.name config.templateType
        alternativeNames := generateAlternativeNames product.name }
    relatedProducts :=
      { complementaryProducts :=
          generateComplementaryProducts config.templateType
        similarSpecies := generateSimilarSpecies product.name }
    breeding :=
      { breedingType := determineBreedingType config.templateType
        breedingDifficulty := determineBreedingDifficulty config.templateType
        breedingNotes := generateBreedingNotes config.templateType }
    metadata :=
      { generatedAt := now
        lastUpdated := now
        confidence := calculateConfidence product
        sources := ["OpenAI GPT-4", "Fish Database", "Care Guides"]
        fishFamily := config.family
        template := config.templateType } }

/-- `generateContent` (`src/lib/ai/content-generator.ts` lines 10-77): after
the simulated delay, the `Math.random() < 0.1` draw (`apiTimeout`) decides
the simulated API-timeout throw; otherwise the templated content is
returned. -/
def generateContent (product : Product) (config : ContentConfig)
    (apiTimeout : Bool) (now : String) : Except String AISearchContent :=
  if apiTimeout then
    Except.error "API timeout - failed to generate content"
  else
    Except.ok (buildContent product config now)

/-- Erase the two embedded generation timestamps, keeping every other
field. -/
def stripTimestamps (c : AISearchContent) : AISearchContent :=
  { c with
    metadata := { c.metadata with generatedAt := "", lastUpdated := "" } }

/-- Two generator invocations "produce the same result": the same
success/failure outcome and, on success, content objects identical in all
non-timestamp fields. -/
def sameOutcome :
    Except String AISearchContent → Except String AISearchContent → Prop
  | Except.error m1, Except.error m2 => m1 = m2
  | Except.ok a, Except.ok b => stripTimestamps a = stripTimestamps b
  | _, _ => False

/-! ### Progress-accounting invariant -/

/-- Each product of a batch increments exactly one of the two counters. -/
theorem itemCounts_one (o : ItemOutcome) :
    itemSuccessCount o + itemFailCount o = 1 := by
  cases o <;> rfl

/-- `batchSuccessful + batchFailed` equals the slice length. -/
theorem processBatch_counts (env : Nat → ItemOutcome) (now : String) :
    ∀ (idx : Nat) (batch : List Product),
      (processBatch env idx now batch).batchSuccessful +
        (processBatch env idx now batch).batchFailed = batch.length := by
  intro idx batch
  induction batch generalizing idx with
  | nil => rfl
  | cons p rest ih =>
      have h1 := itemCounts_one (env idx)
      have h2 := ih (idx + 1)
      simp only [processBatch, List.length_cons]
      omega

/-- `roundDouble` of zero. -/
theorem roundDouble_zero (b : Nat) : roundDouble 0 b = (0, 0) := by
  unfold roundDouble
  simp

/-- The stored percentage of a job with no completed items is 0. -/
theorem jsPercentage_zero (t : Nat) : jsPercentage 0 t = 0 := by
  unfold jsPercentage
  rcases Nat.eq_zero_or_pos t with h | h
  · simp [h]
  · have ht : ¬ t = 0 := by omega
    rw [if_neg ht, roundDouble_zero]
    rfl

/-- `jsPercentage` at `total = 0` is 0 by the model's (unreachable) guard. -/
theorem jsPercentage_total_zero (c : Nat) : jsPercentage c 0 = 0 := rfl

/-- The invariant holds right after `POST`. -/
theorem goodState_init (id : String) (categories : List String)
    (P0 : List Product) (config : ContentConfig) (batchSize concurrent : Nat)
    (now : String) :
    GoodState P0
      (initSys (mkJob id categories P0 config batchSize concurrent now)) :=
  ⟨rfl, rfl, (jsPercentage_zero P0.length).symm⟩

/-- `schedStart` preserves the invariant (it writes only `job.status` and
the closure counters). -/
theorem goodState_schedStart (P0 : List Product) (s : SysState)
    (h : GoodState P0 s) : GoodState P0 (schedStartAct s) := by
  unfold schedStartAct
  split
  · exact h
  · exact ⟨h.products_eq, h.total_eq, h.pct_eq⟩

/-- `patch` preserves the invariant (it rewrites `status` and possibly
`completedAt` and flags in-flight callbacks as detached; `progress` and
`products` are untouched). -/
theorem goodState_patch (P0 : List Product) (newStatus : JobStatus)
    (now : String) (s : SysState) (h : GoodState P0 s) :
    GoodState P0 (patchAct newStatus now s) :=
  ⟨h.products_eq, h.total_eq, h.pct_eq⟩

/-- `tickBegin` preserves the invariant: no branch touches `progress` or
`products` — it only clears the interval, completes an exhausted job, or
pushes errors and parks the new callback. -/
theorem goodState_tickBegin (P0 : List Product) (env : Nat → ItemOutcome)
    (now : String) (s : SysState) (h : GoodState P0 s) :
    GoodState P0 (tickBeginAct env now s) := by
  unfold tickBeginAct
  split
  · exact h
  · split
    · exact ⟨h.products_eq, h.total_eq, h.pct_eq⟩
    · dsimp only
      split
      · exact ⟨h.products_eq, h.total_eq, h.pct_eq⟩
      · exact ⟨h.products_eq, h.total_eq, h.pct_eq⟩

/-- `tickCommit` preserves the invariant: a detached commit leaves the store
untouched, and a live commit writes `total := products.length` and
`completed`/`percentage` consistently in one atomic progress object. -/
theorem goodState_tickCommit (P0 : List Product) (k : Nat) (now : String)
    (s : SysState) (h : GoodState P0 s) :
    GoodState P0 (tickCommitAct k now s) := by
  unfold tickCommitAct
  cases hr : removeNth s.inflight k with
  | none => exact h
  | some pair =>
      obtain ⟨fl, remaining⟩ := pair
      dsimp only
      have hlen : s.store.products.length = P0.length := by
        rw [h.products_eq]
      by_cases hd : fl.detached
      · rw [if_pos hd]
        exact ⟨h.products_eq, h.total_eq, h.pct_eq⟩
      · rw [if_neg hd]
        split
        · exact ⟨h.products_eq, hlen, by rw [hlen]⟩
        · exact ⟨h.products_eq, hlen, by rw [hlen]⟩

/-- Every event preserves the invariant. -/
theorem goodState_apply (P0 : List Product) (a : Action) (s : SysState)
    (h : GoodState P0 s) : GoodState P0 (applyAction a s) := by
  cases a with
  | schedStart => exact goodState_schedStart P0 s h
  | patch newStatus now => exact goodState_patch P0 newStatus now s h
  | tickBegin env now => exact goodState_tickBegin P0 env now s h
  | tickCommit k now => exact goodState_tickCommit P0 k now s h

/-- The invariant holds along every event sequence. -/
theorem goodState_run (P0 : List Product) (s : SysState)
    (h : GoodState P0 s) (acts : List Action) : GoodState P0 (run s acts) := by
  induction acts generalizing s with
  | nil => exact h
  | cons a rest ih => exact ih (applyAction a s) (goodState_apply P0 a s h)

/-! ### The claims -/

/-- C1, code bug: the invariant `completed + failed ≤ total` is false of
the program.  `setInterval` does not wait for its async callback, and the
per-product awaits (1-3 s each in the mock generator) outlast the 3 s
timer, so a second callback begins while the first is parked at an `await`;
both read the shared `currentProductIndex = 0`, both process the slice
`products[0:2]` of a 2-product `batchSize = 2` job, and both commit: the
store ends with `progress = {total: 2, completed: 4, failed: 0}` — a
reachable state with `completed + failed > total`.  The spec's section-5
requirement that concurrent ticks for the same job never interleave is not
enforced anywhere in the code. -/
theorem c1_overlapping_ticks_break_invariant :
    overlapFinal.store.progress.total = 2 ∧
      overlapFinal.store.progress.completed = 4 ∧
      overlapFinal.store.progress.failed = 0 ∧
      ¬ (overlapFinal.store.progress.completed +
          overlapFinal.store.progress.failed ≤
          overlapFinal.store.progress.total) := by
  refine ⟨rfl, rfl, rfl, ?_⟩
  intro hle
  simp only [show overlapFinal.store.progress.completed = 4 from rfl,
    show overlapFinal.store.progress.failed = 0 from rfl,
    show overlapFinal.store.progress.total = 2 from rfl] at hle
  omega

/-- C2 counterexample: the claimed equation `percentage = round(100 *
completed / total)` (exact half-up rounding, `roundPercent`) fails at a
reachable state.  A 40-product job with `batchSize = 23` whose first tick
succeeds on its whole slice reaches `completed = 23, total = 40`; the
program computes `Math.round((23/40)*100)` in binary64 doubles — where
`23/40` rounds below `0.575` and the product lands below `57.5` — and
stores `57`, while the exact formula gives `round(57.5) = 58`. -/
theorem c2_exact_rounding_counterexample :
    floatFinal.store.progress.completed = 23 ∧
      floatFinal.store.progress.total = 40 ∧
      floatFinal.store.progress.percentage = 57 ∧
      roundPercent 23 40 = 58 ∧
      floatFinal.store.progress.percentage ≠
        roundPercent floatFinal.store.progress.completed
          floatFinal.store.progress.total := by
  refine ⟨rfl, rfl, ?_, by decide, ?_⟩ <;> decide

/-- C2 amended: at every reachable state (at creation and after every
tick), `progress.percentage` equals `Math.round((completed / total) * 100)`
as evaluated in IEEE binary64 doubles (`jsPercentage`) — which coincides
with exact half-up rounding of `100 * completed / total` except where the
double rounding lands on the other side of a half-integer — and a job whose
product list is empty reports percentage 0 rather than an undefined
value. -/
theorem c2_percentage_matches_double_rounding (id : String)
    (categories : List String) (products : List Product)
    (config : ContentConfig) (batchSize concurrent : Nat) (now : String)
    (acts : List Action) :
    let s := run (initSys (mkJob id categories products config batchSize
      concurrent now)) acts
    s.store.progress.percentage =
      jsPercentage s.store.progress.completed s.store.progress.total ∧
      (s.store.progress.total = 0 → s.store.progress.percentage = 0) := by
  intro s
  have h := goodState_run products _
    (goodState_init id categories products config batchSize concurrent now) acts
  constructor
  · rw [h.total_eq, h.pct_eq]
  · intro h0
    rw [h.pct_eq]
    rw [h.total_eq] at h0
    rw [h0]
    exact jsPercentage_total_zero _

/-- C3: within a tick, every product of the slice contributes exactly one
outcome: a generator failure appends a `ProcessingError` with errorType
`ai-generation` and increments only `batchFailed`; a publish failure after
successful generation appends an error with errorType `deployment` and
increments only `batchFailed`; success increments only `batchSuccessful`
and appends no error. -/
theorem c3_slice_outcomes (env : Nat → ItemOutcome) (idx : Nat) (now : String)
    (p : Product) (rest : List Product) :
    let r := processBatch env idx now (p :: rest)
    let rr := processBatch env (idx + 1) now rest
    (r.batchSuccessful + r.batchFailed = rest.length + 1) ∧
      (env idx = ItemOutcome.success →
        r.batchSuccessful = 1 + rr.batchSuccessful ∧
          r.batchFailed = rr.batchFailed ∧ r.newErrors = rr.newErrors) ∧
      (env idx = ItemOutcome.publishFailure →
        r.batchSuccessful = rr.batchSuccessful ∧
          r.batchFailed = 1 + rr.batchFailed ∧
          ∃ e, r.newErrors = e :: rr.newErrors ∧
            e.errorType = ErrorType.deployment ∧ e.productId = p.productId ∧
            e.productName = p.name) ∧
      (∀ msg, env idx = ItemOutcome.genFailure msg →
        r.batchSuccessful = rr.batchSuccessful ∧
          r.batchFailed = 1 + rr.batchFailed ∧
          ∃ e, r.newErrors = e :: rr.newErrors ∧
            e.errorType = ErrorType.aiGeneration ∧ e.productId = p.productId ∧
            e.productName = p.name ∧ e.message = msg) := by
  intro r rr
  refine ⟨?_, ?_, ?_, ?_⟩
  · have := processBatch_counts env now idx (p :: rest)
    simpa using this
  · intro h
    simp [processBatch, h, itemSuccessCount, itemFailCount, itemError, r, rr]
  · intro h
    refine ⟨?_, ?_, ?_⟩
    · simp [processBatch, h, itemSuccessCount, r, rr]
    · simp [processBatch, h, itemFailCount, r, rr]
    · refine ⟨deploymentErrorOf p now, ?_, rfl, rfl, rfl⟩
      simp [processBatch, h, itemError, r, rr]
  · intro msg h
    refine ⟨?_, ?_, ?_⟩
    · simp [processBatch, h, itemSuccessCount, r, rr]
    · simp [processBatch, h, itemFailCount, r, rr]
    · refine ⟨generationErrorOf p msg now, ?_, rfl, rfl, rfl, rfl⟩
      simp [processBatch, h, itemError, r, rr]

/-- C3 witness: a generator failure on a concrete one-product slice yields
one failed item and one `ai-generation` error for that product. -/
theorem c3_slice_outcomes_witness :
    (processBatch (fun _ => ItemOutcome.genFailure "API timeout") 0 "T"
        [prodA]).batchFailed = 1 ∧
      ∃ e, (processBatch (fun _ => ItemOutcome.genFailure "API timeout") 0 "T"
          [prodA]).newErrors = [e] ∧
        e.errorType = ErrorType.aiGeneration ∧ e.productId = prodA.productId := by
  have h := c3_slice_outcomes (fun _ => ItemOutcome.genFailure "API timeout")
    0 "T" prodA []
  obtain ⟨_, _, _, hgen⟩ := h
  obtain ⟨_, h2, e, he1, he2, he3, _, _⟩ := hgen "API timeout" rfl
  refine ⟨by rw [h2]; rfl, e, by rw [he1]; rfl, he2, he3⟩

/-- C4, code bug: the state-machine table requires a disallowed transition
such as `completed → running` to be rejected with `InvalidTransition`,
leaving the job unchanged, but the `PATCH` handler performs no validation:
the transition is applied, the stored job changes and the handler answers
200 with the updated job. -/
theorem c4_patch_applies_disallowed_transition :
    (patchInStore "job-1" JobStatus.running "T2" [completedJob]).1 =
      some { completedJob with status := JobStatus.running } ∧
      (patchInStore "job-1" JobStatus.running "T2" [completedJob]).2 =
        [{ completedJob with status := JobStatus.running }] ∧
      { completedJob with status := JobStatus.running } ≠ completedJob := by
  refine ⟨rfl, rfl, ?_⟩
  intro h
  exact JobStatus.noConfusion (congrArg ProcessingJob.status h)

/-- C5, code bug: cancellation is not final in the code.
`simulateJobProgress` sets `job.status = 'running'` unconditionally when its
1-second `setTimeout` fires and never re-checks the status before committing
a tick, so a job cancelled between creation and scheduler start is revived:
its progress increments and its status is overwritten after `cancelled` was
recorded (`PATCH` and the scheduler modelled over one shared job record, as
the source comments intend). -/
theorem c5_progress_after_cancelled :
    (run (initSys (mkJob "job-1" ["12"] [prodA] sampleConfig 5 3 "T0"))
        [Action.patch JobStatus.cancelled "T1"]).store.status =
      JobStatus.cancelled ∧
      (run (initSys (mkJob "job-1" ["12"] [prodA] sampleConfig 5 3 "T0"))
          [Action.patch JobStatus.cancelled "T1"]).store.progress.completed =
        0 ∧
      (run (initSys (mkJob "job-1" ["12"] [prodA] sampleConfig 5 3 "T0"))
          [Action.patch JobStatus.cancelled "T1", Action.schedStart,
            Action.tickBegin (fun _ => ItemOutcome.success) "T2",
            Action.tickCommit 0 "T3"]).store.progress.completed = 1 ∧
      (run (initSys (mkJob "job-1" ["12"] [prodA] sampleConfig 5 3 "T0"))
          [Action.patch JobStatus.cancelled "T1", Action.schedStart,
            Action.tickBegin (fun _ => ItemOutcome.success) "T2",
            Action.tickCommit 0 "T3"]).store.status = JobStatus.completed :=
  ⟨rfl, rfl, rfl, rfl⟩

/-- C6, code bug: `POST /api/jobs` pushes the created job onto the
module-local array of `src/app/api/jobs/route.ts`, while `GET /api/jobs/[id]`
searches the distinct `global.jobs` array of `src/app/api/jobs/[id]/route.ts`
(its own comment: "This would normally import from a shared store"): a job
just created by `POST` is not found by the per-id lookup, which answers 404
instead of 200. -/
theorem c6_created_job_lookup_404 :
    (postJobs (Except.ok [prodA]) ["12"] sampleConfig 5 3 "job-1" "T0"
        initialStores).1 =
      PostResponse.created (mkJob "job-1" ["12"] [prodA] sampleConfig 5 3 "T0") ∧
      (postJobs (Except.ok [prodA]) ["12"] sampleConfig 5 3 "job-1" "T0"
          initialStores).2.routeJobs =
        [mkJob "job-1" ["12"] [prodA] sampleConfig 5 3 "T0"] ∧
      getJobById "job-1"
        (postJobs (Except.ok [prodA]) ["12"] sampleConfig 5 3 "job-1" "T0"
          initialStores).2 = none :=
  ⟨rfl, rfl, rfl⟩

/-- C7: if product resolution fails during job creation, `POST` answers with
the 500 error response before any `jobs.push` has run: no job is persisted
and both job arrays are exactly what they were before the call. -/
theorem c7_resolution_failure_no_persist (e : Unit)
    (categories : List String) (config : ContentConfig)
    (batchSize concurrent : Nat) (newId now : String) (s : StoresState) :
    postJobs (Except.error e) categories config batchSize concurrent newId
      now s = (PostResponse.creationFailed500, s) := rfl

/-- C8, code bug: once an interval callback observes a non-`running` status
it runs `clearInterval` and nothing in the code ever restarts the interval:
after pause, a tick observing the pause, and resume, the job sits at
`running` with its progress frozen at the saved cursor, and every later tick
is a no-op — the remaining product is never processed and the job never
completes. -/
theorem c8_resume_does_not_restart :
    pauseResumeFinal.store.status = JobStatus.running ∧
      pauseResumeFinal.store.progress.completed = 1 ∧
      pauseResumeFinal.store.progress.total = 2 ∧
      pauseResumeFinal.sched.currentProductIndex = 1 ∧
      pauseResumeFinal.sched.intervalActive = false ∧
      ∀ env now1 k now2,
        run pauseResumeFinal
          [Action.tickBegin env now1, Action.tickCommit k now2] =
          pauseResumeFinal :=
  ⟨rfl, rfl, rfl, rfl, rfl, fun _ _ _ _ => rfl⟩

/-- C9, code bug: `completedAt` is supposed to be set exactly once, on
entering any terminal state — in particular on `running → cancelled` — but
the `PATCH` handler sets it only when the new status is `completed`:
cancelling a running job leaves `completedAt` unset, and re-patching
`completed` overwrites an already-set `completedAt`. -/
theorem c9_cancel_leaves_completedAt_unset :
    (patchInStore "job-2" JobStatus.cancelled "T3" [runningJob]).2 =
      [{ runningJob with status := JobStatus.cancelled }] ∧
      ({ runningJob with status := JobStatus.cancelled } :
        ProcessingJob).completedAt = none ∧
      (patchStatus JobStatus.completed "T9" completedJob).completedAt =
        some "T9" ∧
      completedJob.completedAt = some "T1" :=
  ⟨rfl, rfl, rfl, rfl⟩

/-- C10 counterexample: `generateContent` is not a function of the product
and the config alone — the simulated `Math.random() < 0.1` failure makes two
invocations with identical product and config differ in their
success/failure outcome (one throws the API-timeout error, the other
returns content). -/
theorem c10_generator_not_deterministic_counterexample :
    ¬ sameOutcome (generateContent prodA sampleConfig true "T1")
        (generateContent prodA sampleConfig false "T2") := by
  intro h
  simp [generateContent, sameOutcome] at h

/-- C10 amended: conditional determinism — whenever two invocations of
`generateContent` with the same product and config both succeed (the random
timeout did not fire), the returned content objects agree in every
non-timestamp field: the content depends only on the product and the
config. -/
theorem c10_generator_pure_modulo_timestamps (product : Product)
    (config : ContentConfig) (b1 b2 : Bool) (t1 t2 : String)
    (o1 o2 : AISearchContent)
    (h1 : generateContent product config b1 t1 = Except.ok o1)
    (h2 : generateContent product config b2 t2 = Except.ok o2) :
    stripTimestamps o1 = stripTimestamps o2 := by
  cases b1 with
  | true => simp [generateContent] at h1
  | false =>
      cases b2 with
      | true => simp [generateContent] at h2
      | false =>
          simp only [generateContent, if_false, Bool.false_eq_true,
            Except.ok.injEq] at h1 h2
          subst h1
          subst h2
          rfl

/-- C10 witness: the amended theorem applied at a concrete product, config
and two distinct timestamps. -/
theorem c10_generator_pure_witness :
    stripTimestamps (buildContent prodA sampleConfig "T1") =
      stripTimestamps (buildContent prodA sampleConfig "T2") :=
  c10_generator_pure_modulo_timestamps prodA sampleConfig false false
    "T1" "T2" (buildContent prodA sampleConfig "T1")
    (buildContent prodA sampleConfig "T2") rfl rfl

end Riverpark

